import Mathlib

/-!
Verification of the CubeCellMeshCore protocol core (Python simulation of the
MeshCore firmware).  The definitions below are a shallow embedding of the
relevant source files: sim/packet.py, sim/config.py, sim/advert.py,
sim/crypto.py and the repeater logic of sim/node.py.  Bytes are modelled as
natural numbers, byte strings as lists of naturals, machine integers with
explicit reductions mod 2^32 where the source masks with 0xFFFFFFFF.
-/

namespace MeshCore

/-! ## Packet codec (sim/packet.py) -/

def MC_MAX_PATH_SIZE : Nat := 64

def MC_MAX_PAYLOAD_SIZE : Nat := 180

def MC_ROUTE_TRANSPORT_FLOOD : Nat := 0x00

def MC_ROUTE_FLOOD : Nat := 0x01

def MC_ROUTE_DIRECT : Nat := 0x02

def MC_ROUTE_TRANSPORT_DIRECT : Nat := 0x03

def MC_PAYLOAD_REQUEST : Nat := 0x00

def MC_PAYLOAD_RESPONSE : Nat := 0x01

def MC_PAYLOAD_PLAIN : Nat := 0x02

def MC_PAYLOAD_ADVERT : Nat := 0x04

def MC_PAYLOAD_ANON_REQ : Nat := 0x07

def MC_TYPE_CHAT_NODE : Nat := 0x01

def MC_TYPE_REPEATER : Nat := 0x02

def MC_FLAG_HAS_LOCATION : Nat := 0x10

def MC_FLAG_HAS_NAME : Nat := 0x80

/-- Wire packet, port of MCPacket: header byte, path bytes, payload bytes and
the reception metadata the forwarding engine consults (rssi, snr). -/
structure MCPacket where
  header : Nat
  path : List Nat
  payload : List Nat
  rssi : Int
  snr : Int
  deriving Repr, DecidableEq

/-- Port of get_route_type: (header >> 0) & 0x03. -/
def get_route_type (header : Nat) : Nat := header &&& 0x03

/-- Port of get_payload_type: (header >> 2) & 0x0F. -/
def get_payload_type (header : Nat) : Nat := (header >>> 2) &&& 0x0F

def MCPacket.route_type (p : MCPacket) : Nat := get_route_type p.header

def MCPacket.payload_type (p : MCPacket) : Nat := get_payload_type p.header

/-- Port of MCPacket.is_flood. -/
def MCPacket.is_flood (p : MCPacket) : Bool :=
  p.route_type == MC_ROUTE_FLOOD || p.route_type == MC_ROUTE_TRANSPORT_FLOOD

/-- Port of MCPacket.is_direct. -/
def MCPacket.is_direct (p : MCPacket) : Bool :=
  p.route_type == MC_ROUTE_DIRECT || p.route_type == MC_ROUTE_TRANSPORT_DIRECT

/-- Port of MCPacket.serialize: [header][pathLen][path...][payload...]. -/
def MCPacket.serialize (p : MCPacket) : List Nat :=
  p.header :: p.path.length :: (p.path ++ p.payload)

/-- Port of the static MCPacket.deserialize; reception metadata is zeroed
exactly as a fresh MCPacket() is. -/
def MCPacket.deserialize (data : List Nat) : Option MCPacket :=
  if data.length < 2 then none
  else
    let h := data.getD 0 0
    let path_len := data.getD 1 0
    if path_len > MC_MAX_PATH_SIZE then none
    else if 2 + path_len > data.length then none
    else
      let path := (data.drop 2).take path_len
      let payload_data := data.drop (2 + path_len)
      let payload_data :=
        if payload_data.length > MC_MAX_PAYLOAD_SIZE
        then payload_data.take MC_MAX_PAYLOAD_SIZE else payload_data
      some { header := h, path := path, payload := payload_data, rssi := 0, snr := 0 }

/-- One DJB2 update step h = ((h << 5) + h) ^ b, masked to 32 bits. -/
def djb2_step (h b : Nat) : Nat := (((h <<< 5) + h) ^^^ b) % 4294967296

/-- Port of MCPacket.get_packet_id: DJB2 over the header, the first 8 path
bytes and the first 16 payload bytes, seed 5381. -/
def MCPacket.get_packet_id (p : MCPacket) : Nat :=
  let h0 := djb2_step 5381 p.header
  let h1 := (p.path.take 8).foldl djb2_step h0
  (p.payload.take 16).foldl djb2_step h1

/-! ## Dedup cache and TX queue (sim/config.py) -/

def MC_PACKET_ID_CACHE : Nat := 32

def MC_TX_QUEUE_SIZE : Nat := 4

/-- Port of PacketIdCache: circular buffer of packet ids. -/
structure PacketIdCache where
  ids : List Nat
  pos : Nat
  size : Nat
  deriving Repr, DecidableEq

/-- Freshly constructed PacketIdCache(size): ids = [0]*size, pos = 0. -/
def PacketIdCache.init (size : Nat) : PacketIdCache :=
  { ids := List.replicate size 0, pos := 0, size := size }

/-- Port of PacketIdCache.add_if_new: returns (added?, updated cache). -/
def PacketIdCache.add_if_new (c : PacketIdCache) (pkt_id : Nat) : Bool × PacketIdCache :=
  if pkt_id ∈ c.ids then (false, c)
  else (true, { c with ids := c.ids.set c.pos pkt_id, pos := (c.pos + 1) % c.size })

/-- Port of TxQueue: bounded FIFO of packets. -/
structure TxQueue where
  queue : List MCPacket
  max_size : Nat
  deriving Repr, DecidableEq

/-- Port of TxQueue.add: returns (added?, updated queue); fails when full. -/
def TxQueue.add (q : TxQueue) (p : MCPacket) : Bool × TxQueue :=
  if q.queue.length ≥ q.max_size then (false, q)
  else (true, { q with queue := q.queue ++ [p] })

def TxQueue.count (q : TxQueue) : Nat := q.queue.length

/-! ## Rate limiter (sim/config.py) -/

/-- Port of RateLimiter state. -/
structure RateLimiter where
  window_start : Int
  window_secs : Int
  max_count : Nat
  count : Nat
  total_blocked : Nat
  total_allowed : Nat
  deriving Repr, DecidableEq

/-- Port of RateLimiter.allow. -/
def RateLimiter.allow (r : RateLimiter) (now_secs : Int) : Bool × RateLimiter :=
  if now_secs < r.window_start + r.window_secs then
    let c := r.count + 1
    if c > r.max_count then
      (false, { r with count := c, total_blocked := r.total_blocked + 1 })
    else
      (true, { r with count := c, total_allowed := r.total_allowed + 1 })
  else
    (true, { r with window_start := now_secs, count := 1,
                    total_allowed := r.total_allowed + 1 })

/-! ## Neighbour table and circuit breaker (sim/node.py) -/

def CB_STATE_OPEN : Nat := 1

/-- Neighbour record fields consulted by the forwarding path. -/
structure Neighbour where
  hash : Nat
  cb_state : Nat
  deriving Repr, DecidableEq

/-- Port of SimRepeater._is_circuit_open: first matching hash decides. -/
def is_circuit_open (ns : List Neighbour) (hash_val : Nat) : Bool :=
  match ns.find? (fun n => n.hash == hash_val) with
  | some n => n.cb_state == CB_STATE_OPEN
  | none => false

/-! ## Admission predicate and forwarding (sim/node.py) -/

def MC_MIN_RSSI_FORWARD : Int := -120

/-- Port of SimRepeater._should_forward.  The repeater identity hash is
passed explicitly; the dedup cache is threaded because add_if_new mutates
it.  Returns (forward?, updated cache). -/
def should_forward (my_hash : Nat) (cache : PacketIdCache) (pkt : MCPacket) :
    Bool × PacketIdCache :=
  let is_fl := pkt.is_flood
  let is_dr := pkt.is_direct
  if !is_fl && !is_dr then (false, cache)
  else if pkt.rssi < MC_MIN_RSSI_FORWARD then (false, cache)
  else if is_dr && pkt.path.length == 0 then (false, cache)
  else if is_dr && !(pkt.path.getD 0 0 == my_hash) then (false, cache)
  else if (pkt.payload_type == MC_PAYLOAD_ANON_REQ
            || pkt.payload_type == MC_PAYLOAD_REQUEST
            || pkt.payload_type == MC_PAYLOAD_RESPONSE)
          && pkt.payload.length > 0 && pkt.payload.getD 0 0 == my_hash then
    (false, cache)
  else
    let r := cache.add_if_new pkt.get_packet_id
    if !r.1 then (false, r.2)
    else if is_fl && decide (my_hash ∈ pkt.path) then (false, r.2)
    else if is_fl && decide (pkt.path.length ≥ MC_MAX_PATH_SIZE - 1) then (false, r.2)
    else (true, r.2)

/-- Mutable repeater state touched by the forwarding block of
SimRepeater.on_rx_packet (node.py lines 368-397). -/
structure FwdState where
  cache : PacketIdCache
  limiter : RateLimiter
  tx_queue : TxQueue
  fwd_count : Nat
  deriving Repr, DecidableEq

/-- Port of the forwarding block of SimRepeater.on_rx_packet: admission
predicate, rate gate, circuit-breaker gate for direct routes, path rewrite,
TX enqueue and forward-counter increment.  The SNR delay computation and the
log calls of the source do not touch this state and are omitted. -/
def repeater_forward (my_hash : Nat) (neighbours : List Neighbour)
    (now_secs : Int) (st : FwdState) (pkt : MCPacket) : FwdState :=
  let r := should_forward my_hash st.cache pkt
  let st1 := { st with cache := r.2 }
  if !r.1 then st1
  else
    let a := st1.limiter.allow now_secs
    let st2 := { st1 with limiter := a.2 }
    if !a.1 then st2
    else if pkt.is_direct then
      if 2 ≤ pkt.path.length ∧ is_circuit_open neighbours (pkt.path.getD 1 0) = true then
        st2
      else
        let fwd_pkt := { pkt with path := pkt.path.drop 1 }
        let q := st2.tx_queue.add fwd_pkt
        { st2 with tx_queue := q.2, fwd_count := st2.fwd_count + 1 }
    else
      let fwd_pkt := { pkt with path := pkt.path ++ [my_hash] }
      let q := st2.tx_queue.add fwd_pkt
      { st2 with tx_queue := q.2, fwd_count := st2.fwd_count + 1 }

/-- Common origination fragment of send_advert, send_directed_ping,
send_directed_trace, _send_pong and _send_trace_response (node.py): the
packet id is offered to the dedup cache via add_if_new and the packet is
enqueued. -/
def send_enqueue (cache : PacketIdCache) (q : TxQueue) (pkt : MCPacket) :
    PacketIdCache × TxQueue :=
  let r := cache.add_if_new pkt.get_packet_id
  (r.2, (q.add pkt).2)

/-! ## Store-and-forward mailbox (sim/config.py) -/

/-- Port of MailboxSlot. -/
structure MailboxSlot where
  dest_hash : Nat
  timestamp : Int
  pkt_data : List Nat
  deriving Repr, DecidableEq

/-- Port of MailboxSlot.is_empty: empty iff the stored bytes are empty. -/
def MailboxSlot.is_empty (s : MailboxSlot) : Bool := s.pkt_data.length == 0

/-- Port of MailboxSlot.clear / a fresh MailboxSlot(). -/
def MailboxSlot.cleared : MailboxSlot := { dest_hash := 0, timestamp := 0, pkt_data := [] }

/-- Port of Mailbox with its fixed slot counts unrolled: e0, e1 are
eeprom_slots[0], eeprom_slots[1] (the persistent tier, MAILBOX_SLOTS = 2)
and r0..r3 are ram_slots[0..3] (the volatile tier, MAILBOX_RAM_SLOTS = 4). -/
structure Mailbox where
  e0 : MailboxSlot
  e1 : MailboxSlot
  r0 : MailboxSlot
  r1 : MailboxSlot
  r2 : MailboxSlot
  r3 : MailboxSlot
  deriving Repr, DecidableEq

/-- Port of Mailbox._all_slots: eeprom slots first, then RAM slots. -/
def Mailbox.all_slots (mb : Mailbox) : List MailboxSlot :=
  [mb.e0, mb.e1, mb.r0, mb.r1, mb.r2, mb.r3]

/-- Port of Mailbox.is_duplicate. -/
def Mailbox.is_duplicate (mb : Mailbox) (data : List Nat) : Bool :=
  mb.all_slots.any (fun s => !s.is_empty && s.pkt_data == data)

/-- Port of Mailbox.store.  The final branch is min(ram_slots, key=timestamp)
unrolled: Python's min returns the first slot attaining the minimal
timestamp, so each comparison is a strict <  against the running minimum. -/
def Mailbox.store (mb : Mailbox) (dest_hash : Nat) (pkt_data : List Nat)
    (unix_time : Int) : Bool × Mailbox :=
  if pkt_data.length = 0 then (false, mb)
  else if mb.is_duplicate pkt_data then (false, mb)
  else
    let slot : MailboxSlot := { dest_hash := dest_hash, timestamp := unix_time, pkt_data := pkt_data }
    if mb.e0.is_empty then (true, { mb with e0 := slot })
    else if mb.e1.is_empty then (true, { mb with e1 := slot })
    else if mb.r0.is_empty then (true, { mb with r0 := slot })
    else if mb.r1.is_empty then (true, { mb with r1 := slot })
    else if mb.r2.is_empty then (true, { mb with r2 := slot })
    else if mb.r3.is_empty then (true, { mb with r3 := slot })
    else if mb.r1.timestamp < mb.r0.timestamp then
      if mb.r2.timestamp < mb.r1.timestamp then
        if mb.r3.timestamp < mb.r2.timestamp then (true, { mb with r3 := slot })
        else (true, { mb with r2 := slot })
      else if mb.r3.timestamp < mb.r1.timestamp then (true, { mb with r3 := slot })
      else (true, { mb with r1 := slot })
    else
      if mb.r2.timestamp < mb.r0.timestamp then
        if mb.r3.timestamp < mb.r2.timestamp then (true, { mb with r3 := slot })
        else (true, { mb with r2 := slot })
      else if mb.r3.timestamp < mb.r0.timestamp then (true, { mb with r3 := slot })
      else (true, { mb with r0 := slot })

/-- Port of Mailbox.count_for. -/
def Mailbox.count_for (mb : Mailbox) (dest_hash : Nat) : Nat :=
  (mb.all_slots.filter (fun s => !s.is_empty && s.dest_hash == dest_hash)).length

/-- Port of Mailbox.pop_for: scans eeprom slots then RAM slots, returns and
clears the first non-empty slot with the matching destination. -/
def Mailbox.pop_for (mb : Mailbox) (dest_hash : Nat) : Option (List Nat) × Mailbox :=
  if !mb.e0.is_empty && mb.e0.dest_hash == dest_hash then
    (some mb.e0.pkt_data, { mb with e0 := MailboxSlot.cleared })
  else if !mb.e1.is_empty && mb.e1.dest_hash == dest_hash then
    (some mb.e1.pkt_data, { mb with e1 := MailboxSlot.cleared })
  else if !mb.r0.is_empty && mb.r0.dest_hash == dest_hash then
    (some mb.r0.pkt_data, { mb with r0 := MailboxSlot.cleared })
  else if !mb.r1.is_empty && mb.r1.dest_hash == dest_hash then
    (some mb.r1.pkt_data, { mb with r1 := MailboxSlot.cleared })
  else if !mb.r2.is_empty && mb.r2.dest_hash == dest_hash then
    (some mb.r2.pkt_data, { mb with r2 := MailboxSlot.cleared })
  else if !mb.r3.is_empty && mb.r3.dest_hash == dest_hash then
    (some mb.r3.pkt_data, { mb with r3 := MailboxSlot.cleared })
  else (none, mb)

/-- Fresh MCPacket() as constructed at the top of the delivery loop of
SimRepeater.on_rx_packet: all fields zero / empty. -/
def fresh_packet : MCPacket := { header := 0, path := [], payload := [], rssi := 0, snr := 0 }

/-- Port of the mailbox delivery while-loop of SimRepeater.on_rx_packet
(node.py lines 343-350).  Each iteration pops one entry; the source tests
the truthiness of the static MCPacket.deserialize(data) but enqueues the
fresh fwd_pkt it was called on, whose fields stay at their defaults.  The
loop ends when pop_for yields nothing; the fuel argument only bounds the
recursion and is chosen larger than the slot count at every call site. -/
def deliver_loop : Nat → Mailbox → TxQueue → Nat → Mailbox × TxQueue
  | 0, mb, q, _ => (mb, q)
  | fuel + 1, mb, q, dest_hash =>
    match mb.pop_for dest_hash with
    | (none, mb2) => (mb2, q)
    | (some data, mb2) =>
      let fwd_pkt := fresh_packet
      if (MCPacket.deserialize data).isSome then
        deliver_loop fuel mb2 (q.add fwd_pkt).2 dest_hash
      else
        deliver_loop fuel mb2 q dest_hash

/-! ## Advert parsing (sim/advert.py) -/

def MC_PUBLIC_KEY_SIZE : Nat := 32

def MC_NODE_NAME_MAX : Nat := 16

def ADVERT_TIMESTAMP_OFFSET : Nat := 32

def ADVERT_FLAGS_OFFSET : Nat := 100

def ADVERT_MIN_SIZE : Nat := 101

/-- Parsed ADVERT information, port of AdvertInfo.  The display name is kept
as its raw bytes: the source decodes them as UTF-8 with errors=replace,
which does not change whether the name is empty nor which payload bytes it
was read from. -/
structure AdvertInfo where
  pub_key_hash : Nat
  public_key : List Nat
  timestamp : Nat
  flags : Nat
  has_location : Bool
  latitude : Int
  longitude : Int
  has_name : Bool
  name : List Nat
  is_repeater : Bool
  is_chat_node : Bool
  deriving Repr, DecidableEq

/-- Little-endian unsigned 32-bit read, port of struct.unpack_from with
format <I at a byte offset. -/
def read_u32_le (payload : List Nat) (off : Nat) : Nat :=
  payload.getD off 0 + 256 * payload.getD (off + 1) 0
    + 65536 * payload.getD (off + 2) 0 + 16777216 * payload.getD (off + 3) 0

/-- Little-endian signed 32-bit read, port of struct.unpack_from with
format <i. -/
def read_i32_le (payload : List Nat) (off : Nat) : Int :=
  let u := read_u32_le payload off
  if u < 2147483648 then (u : Int) else (u : Int) - 4294967296

/-- Uppercase hex digit of a value below 16, as produced by Python's
format specifier X. -/
def hex_digit (n : Nat) : Nat := if n < 10 then 48 + n else 55 + n

/-- Bytes of the fallback display name, Python f-string Node-{hash:02X}
for a single-byte hash (pub_key_hash is payload[0], a byte). -/
def fallback_name (hash_val : Nat) : List Nat :=
  [78, 111, 100, 101, 45, hex_digit (hash_val / 16 % 16), hex_digit (hash_val % 16)]

/-- Port of parse_advert (advert.py lines 180-218).  Note the source only
advances pos past the flags byte in the has_valid_flags branch; in the
malformed-flags branch pos stays at ADVERT_FLAGS_OFFSET = 100. -/
def parse_advert (payload : List Nat) : Option AdvertInfo :=
  if payload.length < ADVERT_MIN_SIZE then none
  else
    let public_key := payload.take MC_PUBLIC_KEY_SIZE
    let pub_key_hash := payload.getD 0 0
    let timestamp := read_u32_le payload ADVERT_TIMESTAMP_OFFSET
    let flags0 := payload.getD ADVERT_FLAGS_OFFSET 0
    let node_type := flags0 &&& 0x0F
    let has_valid_flags := (flags0 &&& 0x80) ≠ 0 ∧ node_type ≤ 0x04
    if has_valid_flags then
      let has_location := (flags0 &&& MC_FLAG_HAS_LOCATION) != 0
      let has_name := (flags0 &&& MC_FLAG_HAS_NAME) != 0
      let loc_read := has_location = true ∧ 101 + 8 ≤ payload.length
      let latitude := if loc_read then read_i32_le payload 101 else 0
      let longitude := if loc_read then read_i32_le payload 105 else 0
      let pos := if loc_read then 109 else 101
      let name :=
        if has_name = true ∧ pos < payload.length then
          (payload.drop pos).take (min (payload.length - pos) (MC_NODE_NAME_MAX - 1))
        else fallback_name pub_key_hash
      some { pub_key_hash := pub_key_hash, public_key := public_key,
             timestamp := timestamp, flags := flags0,
             has_location := has_location, latitude := latitude, longitude := longitude,
             has_name := has_name, name := name,
             is_repeater := node_type == MC_TYPE_REPEATER,
             is_chat_node := node_type == MC_TYPE_CHAT_NODE }
    else
      let pos := ADVERT_FLAGS_OFFSET
      let name :=
        if pos < payload.length then
          (payload.drop pos).take (min (payload.length - pos) (MC_NODE_NAME_MAX - 1))
        else fallback_name pub_key_hash
      some { pub_key_hash := pub_key_hash, public_key := public_key,
             timestamp := timestamp, flags := MC_TYPE_CHAT_NODE ||| MC_FLAG_HAS_NAME,
             has_location := false, latitude := 0, longitude := 0,
             has_name := true, name := name,
             is_repeater := false, is_chat_node := true }

/-- Port of the mailbox delivery trigger in SimRepeater.on_rx_packet
(node.py lines 340-350): when an ADVERT packet is received and the mailbox
has pending entries for the advertised fingerprint, run the delivery loop.
The fuel 7 exceeds the 6 mailbox slots, so the loop always reaches the
pop_for miss that terminates the source's while True. -/
def on_advert_mailbox (mb : Mailbox) (q : TxQueue) (pkt : MCPacket) :
    Mailbox × TxQueue :=
  if pkt.payload_type == MC_PAYLOAD_ADVERT then
    match parse_advert pkt.payload with
    | some info =>
      if mb.count_for info.pub_key_hash > 0 then
        deliver_loop 7 mb q info.pub_key_hash
      else (mb, q)
    | none => (mb, q)
  else (mb, q)

/-! ## Time synchronization (sim/advert.py) -/

def CONSENSUS_WINDOW_MS : Int := 3600000

def MAX_TIMESTAMP_DIFF : Int := 300

/-- Port of TimeSync state; the clock is passed to sync_from_advert as the
current millis value. -/
structure TimeSync where
  base_timestamp : Int
  base_millis : Int
  synchronized : Bool
  pending_timestamp : Int
  pending_millis : Int
  deriving Repr, DecidableEq

/-- Port of TimeSync.sync_from_advert; now is self._clock.millis().
Python floor division is Int.fdiv.  Returns (updated state, result code)
with 0 = no change, 1 = first sync, 2 = re-sync consensus. -/
def TimeSync.sync_from_advert (ts : TimeSync) (now : Int) (unix_time : Int) :
    TimeSync × Nat :=
  if unix_time < 1577836800 ∨ unix_time > 4102444800 then (ts, 0)
  else if ts.synchronized = false then
    ({ base_timestamp := unix_time, base_millis := now, synchronized := true,
       pending_timestamp := 0, pending_millis := 0 }, 1)
  else
    let our_time := ts.base_timestamp + (now - ts.base_millis).fdiv 1000
    let diff := unix_time - our_time
    if |diff| < MAX_TIMESTAMP_DIFF then
      ({ ts with pending_timestamp := 0, pending_millis := 0 }, 0)
    else if ts.pending_timestamp > 0 ∧ now - ts.pending_millis < CONSENSUS_WINDOW_MS then
      let pending_adjusted := ts.pending_timestamp + (now - ts.pending_millis).fdiv 1000
      let pending_diff := unix_time - pending_adjusted
      if |pending_diff| < MAX_TIMESTAMP_DIFF then
        ({ ts with base_timestamp := (unix_time + pending_adjusted).fdiv 2,
                   base_millis := now, pending_timestamp := 0, pending_millis := 0 }, 2)
      else
        ({ ts with pending_timestamp := unix_time, pending_millis := now }, 0)
    else
      ({ ts with pending_timestamp := unix_time, pending_millis := now }, 0)

/-! ## Encrypt-then-MAC verification (sim/crypto.py) -/

def MC_CIPHER_MAC_SIZE : Nat := 2

def MC_AES_BLOCK_SIZE : Nat := 16

/-- Port of compute_hmac: HMAC-SHA256 truncated to 2 bytes.  The underlying
HMAC-SHA256 is the pycryptodome library call, taken as a parameter
(key, data to full digest bytes). -/
def compute_hmac (hmac_sha256 : List Nat → List Nat → List Nat)
    (key data : List Nat) : List Nat :=
  (hmac_sha256 key data).take MC_CIPHER_MAC_SIZE

/-- Outcome of mac_then_decrypt as observed by a caller: a returned
plaintext, a returned None (length gate or MAC mismatch), or a ValueError
escaping from the pycryptodome AES call. -/
inductive MacDecryptOutcome where
  | plaintext (out : List Nat)
  | failure
  | error
  deriving Repr, DecidableEq

/-- Port of decrypt_ecb: AES-128-ECB decryption of whole blocks.  The
pycryptodome cipher.decrypt raises ValueError when the input length is not
a multiple of the 16-byte block size; the raise is modelled as none.  The
block decryption itself is the library call, taken as the aes_ecb
parameter (ciphertext, key to plaintext). -/
def decrypt_ecb (aes_ecb : List Nat → List Nat → List Nat)
    (ciphertext key : List Nat) : Option (List Nat) :=
  if ciphertext.length % MC_AES_BLOCK_SIZE = 0 then some (aes_ecb ciphertext key)
  else none

/-- Port of mac_then_decrypt: length gate, constant-time MAC compare
(equality of the two byte strings), then decrypt_ecb.  A none from
decrypt_ecb is the ValueError propagating out of mac_then_decrypt
uncaught, kept distinct from the function's own None returns. -/
def mac_then_decrypt (hmac_sha256 : List Nat → List Nat → List Nat)
    (aes_ecb : List Nat → List Nat → List Nat)
    (data key mac_key : List Nat) : MacDecryptOutcome :=
  if data.length < MC_CIPHER_MAC_SIZE + MC_AES_BLOCK_SIZE then MacDecryptOutcome.failure
  else
    let mac := data.take MC_CIPHER_MAC_SIZE
    let ciphertext := data.drop MC_CIPHER_MAC_SIZE
    if mac = compute_hmac hmac_sha256 mac_key ciphertext then
      match decrypt_ecb aes_ecb ciphertext key with
      | some pt => MacDecryptOutcome.plaintext pt
      | none => MacDecryptOutcome.error
    else MacDecryptOutcome.failure

/-! ## Concrete example states used by counterexamples and witnesses -/

/-- Sample directed-ping packet destined to fingerprint 0xAA = 170: header 9
is route flood, payload type plain; payload [dest][src][68 80 = DP]. -/
def stored_ping_packet : MCPacket :=
  { header := 9, path := [187], payload := [170, 187, 68, 80], rssi := 0, snr := 0 }

/-- Mailbox holding one pending entry for fingerprint 170: the serialized
bytes of stored_ping_packet, stored in the first persistent slot. -/
def mailbox_with_stored : Mailbox :=
  { e0 := { dest_hash := 170, timestamp := 1000, pkt_data := stored_ping_packet.serialize }
    e1 := MailboxSlot.cleared
    r0 := MailboxSlot.cleared
    r1 := MailboxSlot.cleared
    r2 := MailboxSlot.cleared
    r3 := MailboxSlot.cleared }

/-- Advert packet from the peer with fingerprint 170: header 17 is route
flood with payload type advert; the 101-byte payload starts with the public
key byte 170. -/
def advert_from_peer : MCPacket :=
  { header := 17, path := [], payload := 170 :: List.replicate 100 0, rssi := 0, snr := 0 }

/-- Empty TX queue of the default bounded size 4. -/
def empty_tx_queue : TxQueue := { queue := [], max_size := MC_TX_QUEUE_SIZE }

/-- TX queue already holding 4 packets: full at the default bound. -/
def full_tx_queue : TxQueue :=
  { queue := List.replicate 4 fresh_packet, max_size := MC_TX_QUEUE_SIZE }

/-- Fresh forwarding rate limiter with the default 100 / 60 s budget. -/
def fresh_forward_limiter : RateLimiter :=
  { window_start := 0, window_secs := 60, max_count := 100, count := 0,
    total_blocked := 0, total_allowed := 0 }

/-- Flood-routed plain packet from fingerprint 7, forwardable by a repeater
with fingerprint 1. -/
def forwardable_packet : MCPacket :=
  { header := 9, path := [7], payload := [3, 4], rssi := 0, snr := 0 }

/-- Packet whose DJB2 fingerprint is exactly 0 (found by meet-in-the-middle
over the byte sequence header, path[0..3]). -/
def zero_id_packet : MCPacket :=
  { header := 151, path := [194, 1, 19, 2], payload := [], rssi := 0, snr := 0 }

/-- Stand-in digest function used to instantiate the abstract HMAC-SHA256
parameter at concrete inputs: the constant all-zero 32-byte digest. -/
def zero_digest (key data : List Nat) : List Nat := List.replicate 32 0

/-- Stand-in AES-ECB block decryption used to instantiate the abstract
library parameter at concrete inputs: the identity on the ciphertext. -/
def identity_blocks (ciphertext key : List Nat) : List Nat := ciphertext

/-! ## Helper lemmas -/

/-- After add_if_new the offered id is in the cache, whether it was already
present or has just been written at the ring position. -/
theorem add_if_new_mem (cache : PacketIdCache) (pid : Nat)
    (hlen : cache.ids.length = cache.size) (hpos : cache.pos < cache.size) :
    pid ∈ (cache.add_if_new pid).2.ids := by
  unfold PacketIdCache.add_if_new
  by_cases h : pid ∈ cache.ids
  · rw [if_pos h]
    exact h
  · rw [if_neg h]
    have hlt : cache.pos < (cache.ids.set cache.pos pid).length := by
      rw [List.length_set, hlen]
      exact hpos
    have hget : (cache.ids.set cache.pos pid)[cache.pos] = pid := by
      rw [List.getElem_set_self]
    have hmem : pid ∈ cache.ids.set cache.pos pid :=
      List.mem_iff_getElem.mpr ⟨cache.pos, hlt, hget⟩
    simpa using hmem

/-! ## Theorems -/

/-- C5: for every packet p whose header is one byte, whose path has at most
64 entries each fitting one byte, and whose payload has at most 180 bytes,
deserialize(serialize(p)) succeeds and yields a packet equal to p on the
fields header, path, and payload. -/
theorem serialize_deserialize_roundtrip (p : MCPacket)
    (hh : p.header < 256) (hpb : ∀ b ∈ p.path, b < 256)
    (hp : p.path.length ≤ 64) (hl : p.payload.length ≤ 180) :
    (MCPacket.deserialize p.serialize).map MCPacket.header = some p.header
    ∧ (MCPacket.deserialize p.serialize).map MCPacket.path = some p.path
    ∧ (MCPacket.deserialize p.serialize).map MCPacket.payload = some p.payload := by
  unfold MCPacket.serialize MCPacket.deserialize
  have hnot2 : ¬ ((p.header :: p.path.length :: (p.path ++ p.payload)).length < 2) := by
    simp
  rw [if_neg hnot2]
  simp only [List.getD_cons_zero, List.getD_cons_succ, List.drop_succ_cons, List.drop_zero]
  have hnotp : ¬ (p.path.length > MC_MAX_PATH_SIZE) := by
    simpa [MC_MAX_PATH_SIZE] using hp
  rw [if_neg hnotp]
  have hnotl : ¬ (2 + p.path.length >
      (p.header :: p.path.length :: (p.path ++ p.payload)).length) := by
    simp [List.length_append]
    omega
  rw [if_neg hnotl]
  have htake : (p.path ++ p.payload).take p.path.length = p.path := List.take_left p.path p.payload
  have hdrop2 : (p.header :: p.path.length :: (p.path ++ p.payload)).drop (2 + p.path.length)
      = p.payload := by
    have : (2 + p.path.length) = p.path.length + 2 := by omega
    rw [this]
    show (p.path ++ p.payload).drop p.path.length = p.payload
    exact List.drop_left p.path p.payload
  have hnotpl : ¬ (p.payload.length > MC_MAX_PAYLOAD_SIZE) := by
    simpa [MC_MAX_PAYLOAD_SIZE] using hl
  simp only [htake, hdrop2, if_neg hnotpl, Option.map_some]
  exact ⟨rfl, rfl, rfl⟩

/-- Witness for C5 at a concrete packet. -/
theorem serialize_deserialize_roundtrip_witness :
    (MCPacket.deserialize (MCPacket.serialize
        { header := 9, path := [187], payload := [170, 187, 68, 80], rssi := 0, snr := 0 })).map
      MCPacket.payload = some [170, 187, 68, 80] :=
  (serialize_deserialize_roundtrip
    { header := 9, path := [187], payload := [170, 187, 68, 80], rssi := 0, snr := 0 }
    (by decide) (by decide) (by decide) (by decide)).2.2

/-- C7 counterexample: a 19-byte blob whose leading 2 bytes equal the
truncated digest of its remaining 17 bytes (the abstract HMAC parameter
instantiated with the constant zero digest, as the original claim
quantifies over every digest function).  The claim says a plaintext is
returned; the code passes the MAC check and then the AES call raises
ValueError on the 17-byte, non-block-aligned ciphertext. -/
theorem mac_then_decrypt_misaligned_cex :
    (18 ≤ (List.replicate 19 (0 : Nat)).length
      ∧ (List.replicate 19 (0 : Nat)).take 2
          = compute_hmac zero_digest [] ((List.replicate 19 (0 : Nat)).drop 2))
    ∧ mac_then_decrypt zero_digest identity_blocks (List.replicate 19 0) [] []
        = MacDecryptOutcome.error := by
  refine ⟨⟨by decide, by decide⟩, by decide⟩

/-- C7 amended: for every input blob, AES key and MAC key, the
encrypt-then-MAC verify-and-decrypt operation returns a plaintext if and
only if the blob is at least 18 bytes long, its leading 2 bytes equal the
truncated HMAC-SHA256 of the remaining bytes under the MAC key, and the
remaining ciphertext length is a multiple of the 16-byte AES block (on a
MAC-passing blob that is not block-aligned the AES library raises
ValueError, so no plaintext is returned); on shorter input or MAC mismatch
it returns None without any partial plaintext. -/
theorem mac_then_decrypt_returns_iff
    (hmac_sha256 : List Nat → List Nat → List Nat)
    (aes_ecb : List Nat → List Nat → List Nat)
    (data key mac_key : List Nat) :
    ((∃ pt, mac_then_decrypt hmac_sha256 aes_ecb data key mac_key
        = MacDecryptOutcome.plaintext pt)
      ↔ (18 ≤ data.length
          ∧ data.take 2 = compute_hmac hmac_sha256 mac_key (data.drop 2)
          ∧ (data.drop 2).length % 16 = 0))
    ∧ (¬ (18 ≤ data.length
          ∧ data.take 2 = compute_hmac hmac_sha256 mac_key (data.drop 2)) →
        mac_then_decrypt hmac_sha256 aes_ecb data key mac_key
          = MacDecryptOutcome.failure) := by
  unfold mac_then_decrypt decrypt_ecb
  dsimp only
  simp only [MC_CIPHER_MAC_SIZE, MC_AES_BLOCK_SIZE]
  by_cases h1 : data.length < 2 + 16
  · rw [if_pos h1]
    refine ⟨?_, fun _ => rfl⟩
    constructor
    · rintro ⟨pt, hpt⟩
      simp at hpt
    · rintro ⟨hlen, -, -⟩
      omega
  · rw [if_neg h1]
    by_cases h2 : data.take 2 = compute_hmac hmac_sha256 mac_key (data.drop 2)
    · rw [if_pos h2]
      by_cases h3 : (data.drop 2).length % 16 = 0
      · rw [if_pos h3]
        refine ⟨?_, ?_⟩
        · constructor
          · intro _
            exact ⟨by omega, h2, h3⟩
          · intro _
            exact ⟨aes_ecb (data.drop 2) key, rfl⟩
        · intro hno
          exact absurd ⟨by omega, h2⟩ hno
      · rw [if_neg h3]
        refine ⟨?_, ?_⟩
        · constructor
          · rintro ⟨pt, hpt⟩
            simp at hpt
          · rintro ⟨-, -, hal⟩
            exact absurd hal h3
        · intro hno
          exact absurd ⟨by omega, h2⟩ hno
    · rw [if_neg h2]
      refine ⟨?_, fun _ => rfl⟩
      constructor
      · rintro ⟨pt, hpt⟩
        simp at hpt
      · rintro ⟨-, hmac2, -⟩
        exact absurd hmac2 h2

/-- Witness for C7 amended: an aligned 18-byte MAC-passing blob yields a
plaintext, and the empty blob yields the None failure. -/
theorem mac_then_decrypt_returns_iff_witness :
    (∃ pt, mac_then_decrypt zero_digest identity_blocks (List.replicate 18 0) [] []
        = MacDecryptOutcome.plaintext pt)
    ∧ mac_then_decrypt zero_digest identity_blocks [] [] []
        = MacDecryptOutcome.failure :=
  ⟨(mac_then_decrypt_returns_iff zero_digest identity_blocks
      (List.replicate 18 0) [] []).1.mpr ⟨by decide, by decide, by decide⟩,
   (mac_then_decrypt_returns_iff zero_digest identity_blocks [] [] []).2 (by decide)⟩

/-- C6: for a synchronized time state with a pending candidate recorded less
than 3,600,000 ms ago, a call sync_from_advert(ts_s) where ts_s is in the
plausible range, differs from the local clock by at least 300 s, and is
within 300 s of the pending candidate aged forward by the elapsed whole
seconds, sets the base timestamp to the (integer) arithmetic mean of the
aged-forward pending candidate and ts_s, clears the pending candidate, and
returns the resync outcome 2. -/
theorem sync_from_advert_two_source_resync (ts : TimeSync) (now unix_time : Int)
    (hsync : ts.synchronized = true)
    (hpend : ts.pending_timestamp > 0)
    (hrec0 : 0 ≤ now - ts.pending_millis)
    (hrec : now - ts.pending_millis < 3600000)
    (hlo : 1577836800 ≤ unix_time) (hhi : unix_time ≤ 4102444800)
    (hfar : 300 ≤ |unix_time - (ts.base_timestamp + (now - ts.base_millis).fdiv 1000)|)
    (hnear : |unix_time - (ts.pending_timestamp + (now - ts.pending_millis).fdiv 1000)| < 300) :
    ts.sync_from_advert now unix_time =
      ({ ts with base_timestamp := ((unix_time + (ts.pending_timestamp + (now - ts.pending_millis).fdiv 1000)).fdiv 2),
                 base_millis := now, pending_timestamp := 0, pending_millis := 0 }, 2) := by
  unfold TimeSync.sync_from_advert
  rw [if_neg (by omega)]
  rw [if_neg (by simp [hsync])]
  simp only [MAX_TIMESTAMP_DIFF, CONSENSUS_WINDOW_MS]
  rw [if_neg (not_lt.mpr hfar)]
  rw [if_pos ⟨hpend, hrec⟩]
  rw [if_pos hnear]

/-- Witness for C6: a second time source 1 s after the pending candidate
triggers a consensus resync to the mean of the two. -/
theorem sync_from_advert_two_source_resync_witness :
    TimeSync.sync_from_advert
      { base_timestamp := 1700000000, base_millis := 0, synchronized := true,
        pending_timestamp := 1700001000, pending_millis := 10000 } 11000 1700001001
    = ({ base_timestamp := 1700001001, base_millis := 11000, synchronized := true,
         pending_timestamp := 0, pending_millis := 0 }, 2) := by
  rw [sync_from_advert_two_source_resync
    { base_timestamp := 1700000000, base_millis := 0, synchronized := true,
      pending_timestamp := 1700001000, pending_millis := 10000 } 11000 1700001001
    rfl (by decide) (by decide) (by decide) (by decide) (by decide) (by decide) (by decide)]
  rfl

/-- C10: for every call to Mailbox.store in which both persistent slots are
non-empty, the two persistent slots are unchanged by the call, and a RAM
slot that changes was either empty or had the (first) minimal timestamp
among the four RAM slots. -/
theorem mailbox_store_preserves_persistent (mb : Mailbox) (dest_hash : Nat)
    (pkt_data : List Nat) (unix_time : Int)
    (he0 : mb.e0.is_empty = false) (he1 : mb.e1.is_empty = false) :
    ((mb.store dest_hash pkt_data unix_time).2.e0 = mb.e0
      ∧ (mb.store dest_hash pkt_data unix_time).2.e1 = mb.e1)
    ∧ ((mb.store dest_hash pkt_data unix_time).2.r0 ≠ mb.r0 →
        mb.r0.is_empty = true ∨ (mb.r0.timestamp ≤ mb.r1.timestamp
          ∧ mb.r0.timestamp ≤ mb.r2.timestamp ∧ mb.r0.timestamp ≤ mb.r3.timestamp))
    ∧ ((mb.store dest_hash pkt_data unix_time).2.r1 ≠ mb.r1 →
        mb.r1.is_empty = true ∨ (mb.r1.timestamp ≤ mb.r0.timestamp
          ∧ mb.r1.timestamp ≤ mb.r2.timestamp ∧ mb.r1.timestamp ≤ mb.r3.timestamp))
    ∧ ((mb.store dest_hash pkt_data unix_time).2.r2 ≠ mb.r2 →
        mb.r2.is_empty = true ∨ (mb.r2.timestamp ≤ mb.r0.timestamp
          ∧ mb.r2.timestamp ≤ mb.r1.timestamp ∧ mb.r2.timestamp ≤ mb.r3.timestamp))
    ∧ ((mb.store dest_hash pkt_data unix_time).2.r3 ≠ mb.r3 →
        mb.r3.is_empty = true ∨ (mb.r3.timestamp ≤ mb.r0.timestamp
          ∧ mb.r3.timestamp ≤ mb.r1.timestamp ∧ mb.r3.timestamp ≤ mb.r2.timestamp)) := by
  have key : (mb.store dest_hash pkt_data unix_time).2 = mb
      ∨ (∃ s, (mb.store dest_hash pkt_data unix_time).2 = { mb with r0 := s }
          ∧ (mb.r0.is_empty = true ∨ (mb.r0.timestamp ≤ mb.r1.timestamp
              ∧ mb.r0.timestamp ≤ mb.r2.timestamp ∧ mb.r0.timestamp ≤ mb.r3.timestamp)))
      ∨ (∃ s, (mb.store dest_hash pkt_data unix_time).2 = { mb with r1 := s }
          ∧ (mb.r1.is_empty = true ∨ (mb.r1.timestamp ≤ mb.r0.timestamp
              ∧ mb.r1.timestamp ≤ mb.r2.timestamp ∧ mb.r1.timestamp ≤ mb.r3.timestamp)))
      ∨ (∃ s, (mb.store dest_hash pkt_data unix_time).2 = { mb with r2 := s }
          ∧ (mb.r2.is_empty = true ∨ (mb.r2.timestamp ≤ mb.r0.timestamp
              ∧ mb.r2.timestamp ≤ mb.r1.timestamp ∧ mb.r2.timestamp ≤ mb.r3.timestamp)))
      ∨ (∃ s, (mb.store dest_hash pkt_data unix_time).2 = { mb with r3 := s }
          ∧ (mb.r3.is_empty = true ∨ (mb.r3.timestamp ≤ mb.r0.timestamp
              ∧ mb.r3.timestamp ≤ mb.r1.timestamp ∧ mb.r3.timestamp ≤ mb.r2.timestamp))) := by
    unfold Mailbox.store
    rw [if_neg (show ¬ mb.e0.is_empty = true by simp [he0]),
        if_neg (show ¬ mb.e1.is_empty = true by simp [he1])]
    by_cases h1 : pkt_data.length = 0
    · rw [if_pos h1]
      exact Or.inl rfl
    rw [if_neg h1]
    by_cases h2 : mb.is_duplicate pkt_data = true
    · rw [if_pos h2]
      exact Or.inl rfl
    rw [if_neg h2]
    by_cases hr0 : mb.r0.is_empty = true
    · rw [if_pos hr0]
      exact Or.inr (Or.inl ⟨_, rfl, Or.inl hr0⟩)
    rw [if_neg hr0]
    by_cases hr1 : mb.r1.is_empty = true
    · rw [if_pos hr1]
      exact Or.inr (Or.inr (Or.inl ⟨_, rfl, Or.inl hr1⟩))
    rw [if_neg hr1]
    by_cases hr2 : mb.r2.is_empty = true
    · rw [if_pos hr2]
      exact Or.inr (Or.inr (Or.inr (Or.inl ⟨_, rfl, Or.inl hr2⟩)))
    rw [if_neg hr2]
    by_cases hr3 : mb.r3.is_empty = true
    · rw [if_pos hr3]
      exact Or.inr (Or.inr (Or.inr (Or.inr ⟨_, rfl, Or.inl hr3⟩)))
    rw [if_neg hr3]
    by_cases ha : mb.r1.timestamp < mb.r0.timestamp
    · rw [if_pos ha]
      by_cases hb : mb.r2.timestamp < mb.r1.timestamp
      · rw [if_pos hb]
        by_cases hc : mb.r3.timestamp < mb.r2.timestamp
        · rw [if_pos hc]
          exact Or.inr (Or.inr (Or.inr (Or.inr ⟨_, rfl,
            Or.inr ⟨by omega, by omega, by omega⟩⟩)))
        · rw [if_neg hc]
          exact Or.inr (Or.inr (Or.inr (Or.inl ⟨_, rfl,
            Or.inr ⟨by omega, by omega, by omega⟩⟩)))
      · rw [if_neg hb]
        by_cases hc : mb.r3.timestamp < mb.r1.timestamp
        · rw [if_pos hc]
          exact Or.inr (Or.inr (Or.inr (Or.inr ⟨_, rfl,
            Or.inr ⟨by omega, by omega, by omega⟩⟩)))
        · rw [if_neg hc]
          exact Or.inr (Or.inr (Or.inl ⟨_, rfl,
            Or.inr ⟨by omega, by omega, by omega⟩⟩))
    · rw [if_neg ha]
      by_cases hb : mb.r2.timestamp < mb.r0.timestamp
      · rw [if_pos hb]
        by_cases hc : mb.r3.timestamp < mb.r2.timestamp
        · rw [if_pos hc]
          exact Or.inr (Or.inr (Or.inr (Or.inr ⟨_, rfl,
            Or.inr ⟨by omega, by omega, by omega⟩⟩)))
        · rw [if_neg hc]
          exact Or.inr (Or.inr (Or.inr (Or.inl ⟨_, rfl,
            Or.inr ⟨by omega, by omega, by omega⟩⟩)))
      · rw [if_neg hb]
        by_cases hc : mb.r3.timestamp < mb.r0.timestamp
        · rw [if_pos hc]
          exact Or.inr (Or.inr (Or.inr (Or.inr ⟨_, rfl,
            Or.inr ⟨by omega, by omega, by omega⟩⟩)))
        · rw [if_neg hc]
          exact Or.inr (Or.inl ⟨_, rfl,
            Or.inr ⟨by omega, by omega, by omega⟩⟩)
  rcases key with h | ⟨s, h, hs⟩ | ⟨s, h, hs⟩ | ⟨s, h, hs⟩ | ⟨s, h, hs⟩ <;> rw [h] <;>
    refine ⟨⟨rfl, rfl⟩, ?_, ?_, ?_, ?_⟩ <;> intro hne <;>
      first
        | exact absurd rfl hne
        | exact hs

/-- Witness for C10: storing into a mailbox whose persistent slots and RAM
slots are all occupied leaves the persistent slots untouched. -/
theorem mailbox_store_preserves_persistent_witness :
    ((Mailbox.store
        { e0 := { dest_hash := 1, timestamp := 10, pkt_data := [1] },
          e1 := { dest_hash := 2, timestamp := 20, pkt_data := [2] },
          r0 := { dest_hash := 3, timestamp := 30, pkt_data := [3] },
          r1 := { dest_hash := 4, timestamp := 25, pkt_data := [4] },
          r2 := { dest_hash := 5, timestamp := 40, pkt_data := [5] },
          r3 := { dest_hash := 6, timestamp := 50, pkt_data := [6] } }
        9 [9] 99).2.e0 = { dest_hash := 1, timestamp := 10, pkt_data := [1] }) :=
  (mailbox_store_preserves_persistent
    { e0 := { dest_hash := 1, timestamp := 10, pkt_data := [1] },
      e1 := { dest_hash := 2, timestamp := 20, pkt_data := [2] },
      r0 := { dest_hash := 3, timestamp := 30, pkt_data := [3] },
      r1 := { dest_hash := 4, timestamp := 25, pkt_data := [4] },
      r2 := { dest_hash := 5, timestamp := 40, pkt_data := [5] },
      r3 := { dest_hash := 6, timestamp := 50, pkt_data := [6] } }
    9 [9] 99 (by decide) (by decide)).1.1

/-- C9: a freshly created dedup cache reports the fingerprint value 0 as
already present (add_if_new(0) returns false even though 0 was never
inserted), so a received packet whose DJB2 packet fingerprint equals 0 is
never forwarded by a repeater with a fresh cache, even on first receipt:
should_forward rejects it and the forwarding step leaves the whole
repeater forwarding state unchanged. -/
theorem zero_fingerprint_never_forwarded (my_hash : Nat)
    (neighbours : List Neighbour) (now_secs : Int) (limiter : RateLimiter)
    (q : TxQueue) (cnt : Nat) (pkt : MCPacket)
    (hid : pkt.get_packet_id = 0) :
    ((PacketIdCache.init MC_PACKET_ID_CACHE).add_if_new 0).1 = false
    ∧ (should_forward my_hash (PacketIdCache.init MC_PACKET_ID_CACHE) pkt).1 = false
    ∧ repeater_forward my_hash neighbours now_secs
        { cache := PacketIdCache.init MC_PACKET_ID_CACHE, limiter := limiter,
          tx_queue := q, fwd_count := cnt } pkt
      = { cache := PacketIdCache.init MC_PACKET_ID_CACHE, limiter := limiter,
          tx_queue := q, fwd_count := cnt } := by
  have hadd : (PacketIdCache.init MC_PACKET_ID_CACHE).add_if_new
      pkt.get_packet_id = (false, PacketIdCache.init MC_PACKET_ID_CACHE) := by
    rw [hid]
    decide
  have hsf : should_forward my_hash (PacketIdCache.init MC_PACKET_ID_CACHE) pkt
      = (false, PacketIdCache.init MC_PACKET_ID_CACHE) := by
    unfold should_forward
    dsimp only
    rw [hadd]
    split_ifs <;> first | rfl | simp_all
  refine ⟨by decide, by rw [hsf], ?_⟩
  unfold repeater_forward
  rw [hsf]
  rfl

/-- Witness for C9 at the concrete packet with DJB2 fingerprint 0. -/
theorem zero_fingerprint_never_forwarded_witness :
    ((PacketIdCache.init MC_PACKET_ID_CACHE).add_if_new 0).1 = false
    ∧ (should_forward 3 (PacketIdCache.init MC_PACKET_ID_CACHE) zero_id_packet).1 = false
    ∧ repeater_forward 3 [] 0
        { cache := PacketIdCache.init MC_PACKET_ID_CACHE, limiter := fresh_forward_limiter,
          tx_queue := empty_tx_queue, fwd_count := 0 } zero_id_packet
      = { cache := PacketIdCache.init MC_PACKET_ID_CACHE, limiter := fresh_forward_limiter,
          tx_queue := empty_tx_queue, fwd_count := 0 } :=
  zero_fingerprint_never_forwarded 3 [] 0 fresh_forward_limiter empty_tx_queue 0
    zero_id_packet (by decide)

/-- C1: the code of the mailbox delivery loop contradicts the claim (and its
own intent): it pops every pending entry, so the mailbox count drops to 0,
and the stored bytes do deserialize to the stored packet, but the packet
enqueued on the TX queue is the untouched fresh MCPacket() (all fields
zero), because the result of the static deserialize call is discarded.
Evaluated at the failing input: one pending entry for fingerprint 170 and
an advert from 170. -/
theorem mailbox_delivery_discards_stored_packet :
    (on_advert_mailbox mailbox_with_stored empty_tx_queue advert_from_peer).2.queue
      = [fresh_packet]
    ∧ (on_advert_mailbox mailbox_with_stored empty_tx_queue advert_from_peer).1.count_for 170
      = 0
    ∧ MCPacket.deserialize stored_ping_packet.serialize = some stored_ping_packet
    ∧ fresh_packet ≠ stored_ping_packet := by
  refine ⟨by decide, by decide, by decide, by decide⟩

/-- C2 counterexample: the mailbox delivery path enqueues a packet on the
TX queue without any insertion into the dedup cache.  The delivery code
(on_advert_mailbox, port of node.py lines 340-350) never touches the
repeater's PacketIdCache, so after a delivery from a repeater whose cache
is fresh, the enqueued packet's DJB2 fingerprint (177573, the id of the
empty packet the code enqueues) is not in the cache. -/
theorem mailbox_delivery_bypasses_dedup_cache :
    (on_advert_mailbox mailbox_with_stored empty_tx_queue advert_from_peer).2.queue
      = [fresh_packet]
    ∧ fresh_packet.get_packet_id = 177573
    ∧ ¬ (177573 ∈ (PacketIdCache.init MC_PACKET_ID_CACHE).ids) := by
  refine ⟨by decide, by decide, by decide⟩

/-- C2 amended: for every packet a node originates (send_advert and the
directed ping / trace / pong senders all run the send_enqueue fragment) the
packet's DJB2 fingerprint is in the dedup cache when the enqueue happens,
and for every packet the repeater admits for forwarding the fingerprint of
the received (pre-rewrite) packet is in the cache after the admission
check that precedes the enqueue; packets delivered from the mailbox are
enqueued without any cache insertion. -/
theorem fingerprint_in_cache_before_enqueue :
    (∀ (cache : PacketIdCache) (q : TxQueue) (pkt : MCPacket),
        cache.ids.length = cache.size → cache.pos < cache.size →
        pkt.get_packet_id ∈ (send_enqueue cache q pkt).1.ids)
    ∧ (∀ (my_hash : Nat) (cache : PacketIdCache) (pkt : MCPacket),
        cache.ids.length = cache.size → cache.pos < cache.size →
        (should_forward my_hash cache pkt).1 = true →
        pkt.get_packet_id ∈ (should_forward my_hash cache pkt).2.ids) := by
  constructor
  · intro cache q pkt hlen hpos
    exact add_if_new_mem cache pkt.get_packet_id hlen hpos
  · intro my_hash cache pkt hlen hpos htrue
    have hmem := add_if_new_mem cache pkt.get_packet_id hlen hpos
    revert htrue
    unfold should_forward
    dsimp only
    split_ifs <;> intro htrue <;> first | exact hmem | exact absurd htrue (by simp)

/-- Witness for C2 amended, at a concrete origination and a concrete
admitted forward. -/
theorem fingerprint_in_cache_before_enqueue_witness :
    forwardable_packet.get_packet_id ∈
      (send_enqueue (PacketIdCache.init MC_PACKET_ID_CACHE) empty_tx_queue
        forwardable_packet).1.ids
    ∧ forwardable_packet.get_packet_id ∈
      (should_forward 1 (PacketIdCache.init MC_PACKET_ID_CACHE) forwardable_packet).2.ids :=
  ⟨fingerprint_in_cache_before_enqueue.1 (PacketIdCache.init MC_PACKET_ID_CACHE)
      empty_tx_queue forwardable_packet (by decide) (by decide),
   fingerprint_in_cache_before_enqueue.2 1 (PacketIdCache.init MC_PACKET_ID_CACHE)
      forwardable_packet (by decide) (by decide) (by decide)⟩

/-- C3 counterexample: a 102-byte advert payload whose flags byte (offset
100) is 0 (malformed: bit 0x80 clear) and whose byte at offset 101 is 65.
Were the display name read from position 101 it would be [65]; the parser
actually returns [0, 65], the slice starting at position 100. -/
theorem parse_advert_malformed_name_position_cex :
    (parse_advert (List.replicate 100 50 ++ [0, 65])).map AdvertInfo.name = some [0, 65]
    ∧ ¬ ((parse_advert (List.replicate 100 50 ++ [0, 65])).map AdvertInfo.name
          = some (((List.replicate 100 50 ++ [0, 65]).drop 101).take 15)) := by
  refine ⟨by decide, by decide⟩

/-- C3 amended: for every advert payload of length at least 101 whose
flags byte at offset 100 has bit 0x80 clear or has low nibble greater than
0x04, parse_advert substitutes the default flags chat-node-with-name
(0x81) and reads the display name starting at position 100 of the payload
(the malformed flags byte included), capped at 15 bytes. -/
theorem parse_advert_malformed_flags (payload : List Nat)
    (hlen : 101 ≤ payload.length)
    (hbad : payload.getD 100 0 &&& 0x80 = 0 ∨ 4 < payload.getD 100 0 &&& 0x0F) :
    (parse_advert payload).map AdvertInfo.flags
      = some (MC_TYPE_CHAT_NODE ||| MC_FLAG_HAS_NAME)
    ∧ (parse_advert payload).map AdvertInfo.is_chat_node = some true
    ∧ (parse_advert payload).map AdvertInfo.has_name = some true
    ∧ (parse_advert payload).map AdvertInfo.name
      = some ((payload.drop 100).take (min (payload.length - 100) 15)) := by
  unfold parse_advert
  rw [if_neg (show ¬ payload.length < ADVERT_MIN_SIZE by
    simpa [ADVERT_MIN_SIZE] using hlen)]
  dsimp only
  rw [if_neg (show ¬ ((payload.getD ADVERT_FLAGS_OFFSET 0 &&& 0x80) ≠ 0
      ∧ payload.getD ADVERT_FLAGS_OFFSET 0 &&& 0x0F ≤ 0x04) by
    simp only [ADVERT_FLAGS_OFFSET]
    rcases hbad with h | h
    · intro hc
      exact hc.1 h
    · intro hc
      omega)]
  rw [if_pos (show ADVERT_FLAGS_OFFSET < payload.length by
    simp only [ADVERT_FLAGS_OFFSET]
    omega)]
  simp only [Option.map_some, ADVERT_FLAGS_OFFSET, MC_NODE_NAME_MAX]
  exact ⟨rfl, rfl, rfl, rfl⟩

/-- Witness for C3 amended at the 102-byte payload of the counterexample
shape with a different filler byte. -/
theorem parse_advert_malformed_flags_witness :
    (parse_advert (List.replicate 100 7 ++ [0, 66])).map AdvertInfo.name
      = some (((List.replicate 100 7 ++ [0, 66]).drop 100).take
          (min ((List.replicate 100 7 ++ [0, 66]).length - 100) 15)) :=
  (parse_advert_malformed_flags (List.replicate 100 7 ++ [0, 66])
    (by decide) (by decide)).2.2.2

/-- C8 counterexample: the all-zero advert payload of exactly 101 bytes
parses, but its display name is the single byte [0] read at position 100
(the malformed flags byte), not the empty name the claim states. -/
theorem parse_advert_101_nonempty_name_cex :
    (parse_advert (List.replicate 101 0)).map AdvertInfo.name = some [0]
    ∧ ¬ ((parse_advert (List.replicate 101 0)).map AdvertInfo.name = some []) := by
  refine ⟨by decide, by decide⟩

/-- C8 amended: for every advert payload of exactly 101 bytes, parse_advert
succeeds, no location coordinates are parsed (latitude and longitude stay
0), and the display name is never empty: it is the fallback Node-XX name
when the flags byte is valid and the one-byte slice at position 100 when it
is malformed. -/
theorem parse_advert_exactly_101 (payload : List Nat)
    (hlen : payload.length = 101) :
    (parse_advert payload).isSome = true
    ∧ (parse_advert payload).map AdvertInfo.latitude = some 0
    ∧ (parse_advert payload).map AdvertInfo.longitude = some 0
    ∧ ¬ ((parse_advert payload).map AdvertInfo.name = some []) := by
  unfold parse_advert
  rw [if_neg (show ¬ payload.length < ADVERT_MIN_SIZE by
    simp [ADVERT_MIN_SIZE, hlen])]
  dsimp only
  by_cases hv : (payload.getD ADVERT_FLAGS_OFFSET 0 &&& 0x80) ≠ 0
      ∧ payload.getD ADVERT_FLAGS_OFFSET 0 &&& 0x0F ≤ 0x04
  · rw [if_pos hv]
    have hloc : ¬ (((payload.getD ADVERT_FLAGS_OFFSET 0 &&& MC_FLAG_HAS_LOCATION) != 0) = true
        ∧ 101 + 8 ≤ payload.length) := by
      intro hc
      omega
    rw [if_neg hloc, if_neg hloc, if_neg hloc]
    have hname : ¬ (((payload.getD ADVERT_FLAGS_OFFSET 0 &&& MC_FLAG_HAS_NAME) != 0) = true
        ∧ 101 < payload.length) := by
      intro hc
      omega
    rw [if_neg hname]
    simp [fallback_name]
  · rw [if_neg hv]
    rw [if_pos (show ADVERT_FLAGS_OFFSET < payload.length by
      simp only [ADVERT_FLAGS_OFFSET]
      omega)]
    refine ⟨rfl, rfl, rfl, ?_⟩
    intro hc
    simp at hc
    simp only [ADVERT_FLAGS_OFFSET, MC_NODE_NAME_MAX] at hc
    omega

/-- Witness for C8 amended at the all-zero 101-byte payload. -/
theorem parse_advert_exactly_101_witness :
    (parse_advert (List.replicate 101 0)).isSome = true :=
  (parse_advert_exactly_101 (List.replicate 101 0) (by decide)).1

/-- C4 counterexample: a forwardable flood packet arriving at a repeater
whose 4-slot TX queue is full.  The bounded add of the rewritten packet
(path extended with the repeater hash 1) fails, yet the forward counter is
incremented: the source ignores the return value of TxQueue.add. -/
theorem forward_counter_full_queue_cex :
    (full_tx_queue.add { forwardable_packet with path := forwardable_packet.path ++ [1] }).1
      = false
    ∧ (repeater_forward 1 [] 0
        { cache := PacketIdCache.init MC_PACKET_ID_CACHE, limiter := fresh_forward_limiter,
          tx_queue := full_tx_queue, fwd_count := 0 } forwardable_packet).fwd_count = 1
    ∧ (repeater_forward 1 [] 0
        { cache := PacketIdCache.init MC_PACKET_ID_CACHE, limiter := fresh_forward_limiter,
          tx_queue := full_tx_queue, fwd_count := 0 } forwardable_packet).tx_queue.count = 4 := by
  refine ⟨by decide, by decide, by decide⟩

/-- C4 amended: for every received packet that passes the repeater's
admission predicate, rate gate and circuit-breaker gate, the forwarded
packet counter is incremented unconditionally, whether or not the add to
the bounded TX queue succeeds; the queue state is whatever the bounded add
of the rewritten packet yields. -/
theorem forward_counter_increment_unconditional (my_hash : Nat)
    (neighbours : List Neighbour) (now_secs : Int) (st : FwdState) (pkt : MCPacket)
    (hsf : (should_forward my_hash st.cache pkt).1 = true)
    (hrl : (st.limiter.allow now_secs).1 = true)
    (hcb : pkt.is_direct = true →
      ¬ (2 ≤ pkt.path.length ∧ is_circuit_open neighbours (pkt.path.getD 1 0) = true)) :
    (repeater_forward my_hash neighbours now_secs st pkt).fwd_count = st.fwd_count + 1
    ∧ (repeater_forward my_hash neighbours now_secs st pkt).tx_queue
      = (st.tx_queue.add (if pkt.is_direct then { pkt with path := pkt.path.drop 1 }
          else { pkt with path := pkt.path ++ [my_hash] })).2 := by
  unfold repeater_forward
  dsimp only
  rw [hsf]
  simp only [Bool.not_true, Bool.false_eq_true, if_false]
  rw [hrl]
  simp only [Bool.not_true, Bool.false_eq_true, if_false]
  by_cases hd : pkt.is_direct = true
  · rw [if_pos hd, if_neg (hcb hd), if_pos hd]
    exact ⟨rfl, rfl⟩
  · rw [if_neg hd, if_neg hd]
    exact ⟨rfl, rfl⟩

/-- Witness for C4 amended: the full-queue input of the counterexample; the
counter increments even though the add fails. -/
theorem forward_counter_increment_unconditional_witness :
    (repeater_forward 1 [] 0
      { cache := PacketIdCache.init MC_PACKET_ID_CACHE, limiter := fresh_forward_limiter,
        tx_queue := full_tx_queue, fwd_count := 0 } forwardable_packet).fwd_count = 0 + 1 :=
  (forward_counter_increment_unconditional 1 [] 0
    { cache := PacketIdCache.init MC_PACKET_ID_CACHE, limiter := fresh_forward_limiter,
      tx_queue := full_tx_queue, fwd_count := 0 } forwardable_packet
    (by decide) (by decide) (by decide)).1

end MeshCore
